import Mathlib

/-!
A shallow embedding of the service orchestration layer of `mev-relay-rs`
(`src/mev-relay-rs/src/service.rs`): the `Config` and `Service` types, the
`Service::spawn` bootstrap sequence, the slot-to-epoch notification loop and
the `ServiceHandle` future combinator, together with theorems about them.

External collaborators (`ethereum_consensus` context/clock, the beacon API
client, the `Relay`, the URL parser) are modelled abstractly at their
interface boundary: their behaviour enters as function parameters or
structure fields, while the control flow of `service.rs` itself is
translated literally.  Sequential effectful code is embedded as explicit
state passing plus an event trace recording the side effects in program
order.
-/

namespace MevRelay

/-- Slots are unsigned integers. -/
abbrev Slot := Nat

/-- Epochs are unsigned integers, derived from slots by the clock. -/
abbrev Epoch := Nat

/-- An IPv4 address, four octets; models `std::net::Ipv4Addr`. -/
structure Ipv4Addr where
  o0 : Nat
  o1 : Nat
  o2 : Nat
  o3 : Nat
deriving DecidableEq, Repr

/-- `Ipv4Addr::LOCALHOST`, i.e. 127.0.0.1. -/
def Ipv4Addr.LOCALHOST : Ipv4Addr := ⟨127, 0, 0, 1⟩

/-- Abstract BLS secret-key material; the default corresponds to
`SecretKey::default()`. -/
structure SecretKey where
  material : Nat
deriving DecidableEq, Repr

instance : Inhabited SecretKey := ⟨⟨0⟩⟩

/-- A parsed URL; models the `url::Url` result of parsing an endpoint string.
The parser itself is an external collaborator and is passed in abstractly. -/
structure Url where
  raw : String
deriving DecidableEq, Repr

/-- The beacon API client, holding the endpoint it was built from. -/
structure Client where
  endpoint : Url
deriving DecidableEq, Repr

/-- `Client::new(endpoint)`. -/
def Client.new (endpoint : Url) : Client := ⟨endpoint⟩

/-- Chain network identifier (collaborator type, abstract). -/
structure Network where
  name : String
deriving DecidableEq, Repr

/-- The consensus clock collaborator, at its interface boundary:
`epoch_for(slot)` and `current_epoch()` (the latter is `none` when no
current epoch is derivable, e.g. before genesis). -/
structure Clock where
  epochFor : Slot → Epoch
  currentEpoch? : Option Epoch

/-- The chain context collaborator, at its interface boundary: an optional
embedded clock (`context.clock()`), the network's typical genesis time
(`networks::typical_genesis_time(&context)`), and `context.clock_at`. -/
structure Context where
  clock? : Option Clock
  typicalGenesisTime : Nat
  clockAt : Nat → Clock

/-- The `Config` struct of `service.rs`. -/
structure Config where
  host : Ipv4Addr
  port : Nat
  beaconNodeUrl : String
  secretKey : SecretKey

/-- `impl Default for Config` in `service.rs`. -/
def Config.default : Config where
  host := Ipv4Addr.LOCALHOST
  port := 28545
  beaconNodeUrl := "http://127.0.0.1:5052"
  secretKey := Inhabited.default

/-- The `Service` struct of `service.rs`. -/
structure Service where
  host : Ipv4Addr
  port : Nat
  beaconNode : Client
  network : Network
  secretKey : SecretKey

/-- `Service::from(network, config)`.  The source parses
`config.beacon_node_url` and calls `.unwrap()` on the result, so a malformed
URL is a constructor-time panic, modelled as `none`; `parseUrl` is the
abstract URL-parser collaborator. -/
def Service.from' (parseUrl : String → Option Url) (network : Network)
    (config : Config) : Option Service :=
  match parseUrl config.beaconNodeUrl with
  | none => none
  | some endpoint =>
    some { host := config.host
           port := config.port
           beaconNode := Client.new endpoint
           network := network
           secretKey := config.secretKey }

/-- Context derivation failure (`ethereum_consensus` `ContextError`,
abstract). -/
inductive ContextError where
  | err (msg : String)
deriving DecidableEq, Repr

/-- Beacon API failure (network / timeout / deserialization, abstract). -/
inductive ApiError where
  | err (msg : String)
deriving DecidableEq, Repr

/-- The `mev_rs::Error` variants reachable from `Service::spawn`: the `?`
operator converts a `ContextError` or a beacon API error into it. -/
inductive Error where
  | context (e : ContextError)
  | api (e : ApiError)
deriving DecidableEq, Repr

/-- Genesis details fetched from the beacon node; only the validators root
is used.  The 32-byte digest is modelled as a natural number. -/
structure GenesisDetails where
  genesisValidatorsRoot : Nat
deriving DecidableEq, Repr

/-- The `Relay` collaborator handle.  `Relay` is cheaply duplicable shared
state in the source (interior `Arc`); `id` identifies the shared allocation
so that duplicated handles can be recognised as the same instance. -/
structure Relay where
  id : Nat
  genesisValidatorsRoot : Nat
  beaconNode : Client
  secretKey : SecretKey
  context : Context

/-- `Relay::new(genesis_validators_root, beacon_node, secret_key, context)`.
A single `spawn` execution allocates exactly one relay, with id 0. -/
def Relay.new (genesisValidatorsRoot : Nat) (beaconNode : Client)
    (secretKey : SecretKey) (context : Context) : Relay :=
  ⟨0, genesisValidatorsRoot, beaconNode, secretKey, context⟩

/-- `relay.clone()`: duplicating the handle shares the same instance. -/
def Relay.clone (r : Relay) : Relay := r

/-- Side effects of `Service::spawn` after its fallible prefix, recorded in
program order: relay construction, `relay.initialize().await`, spawning the
API-server task, spawning the slot-loop task.  The task-spawning events
carry the id of the relay handle given to that task. -/
inductive SpawnEvent where
  | relayNew (r : Relay)
  | relayInit (relayId : Nat)
  | spawnServer (relayId : Nat) (host : Ipv4Addr) (port : Nat)
  | spawnSlotLoop (relayId : Nat)

/-- Whether a spawn event is a relay construction. -/
def SpawnEvent.isRelayNew : SpawnEvent → Bool
  | .relayNew _ => true
  | _ => false

/-- The context resolution step of `Service::spawn`:
`if let Some(context) = context { context } else { Context::try_from(&network)? }`.
`tryFromNetwork` is the abstract `Context::try_from` collaborator. -/
def resolveContext (context? : Option Context)
    (tryFromNetwork : Network → Except ContextError Context)
    (network : Network) : Except ContextError Context :=
  match context? with
  | some context => .ok context
  | none => tryFromNetwork network

/-- The clock resolution step of `Service::spawn`:
`context.clock().unwrap_or_else(|| context.clock_at(typical_genesis_time))`. -/
def resolveClock (context : Context) : Clock :=
  match context.clock? with
  | some clock => clock
  | none => context.clockAt context.typicalGenesisTime

/-- The external collaborators `Service::spawn` interacts with: context
derivation from a network, and the beacon node's genesis-details fetch
(`beacon_node.get_genesis_details().await`). -/
structure SpawnEnv where
  tryFromNetwork : Network → Except ContextError Context
  fetchGenesis : Except ApiError GenesisDetails

/-- The data a successful `Service::spawn` has assembled when it returns a
`ServiceHandle`: the resolved context and clock and the relay instance
driven by both spawned tasks. -/
structure SpawnOk where
  context : Context
  clock : Clock
  relay : Relay

/-- `Service::spawn(self, context)`, translated statement by statement.
The result pairs the returned value (`ServiceHandle` data or error) with
the trace of side effects; an early `?` return produces the error and an
empty trace, since no task has been spawned yet. -/
def Service.spawn (svc : Service) (context? : Option Context)
    (env : SpawnEnv) : Except Error SpawnOk × List SpawnEvent :=
  match resolveContext context? env.tryFromNetwork svc.network with
  | .error e => (.error (.context e), [])
  | .ok context =>
    let clock := resolveClock context
    match env.fetchGenesis with
    | .error e => (.error (.api e), [])
    | .ok genesisDetails =>
      let genesisValidatorsRoot := genesisDetails.genesisValidatorsRoot
      let relay := Relay.new genesisValidatorsRoot svc.beaconNode svc.secretKey context
      let blockProvider := relay.clone
      (.ok { context := context, clock := clock, relay := relay },
       [.relayNew relay,
        .relayInit relay.id,
        .spawnServer blockProvider.id svc.host svc.port,
        .spawnSlotLoop relay.id])

/-- Mutable state of the slot-notification loop: `current_epoch` and the
`next_epoch` flag. -/
structure LoopState where
  currentEpoch : Epoch
  nextEpoch : Bool
deriving DecidableEq, Repr

/-- One iteration of the loop body for a slot delivered by the stream:
`let epoch = clock.epoch_for(slot); if epoch > current_epoch { current_epoch = epoch; next_epoch = true; }`
followed by `relay.on_slot(slot, next_epoch)`.  Returns the updated state
and the `(slot, flag)` argument pair of the `on_slot` call. -/
def slotStep (clock : Clock) (st : LoopState) (slot : Slot) :
    LoopState × Slot × Bool :=
  let epoch := clock.epochFor slot
  let st' := if st.currentEpoch < epoch then
    { currentEpoch := epoch, nextEpoch := true } else st
  (st', slot, st'.nextEpoch)

/-- The loop over a finite prefix of the slot stream, returning the sequence
of `on_slot` calls (in program order) and the final state. -/
def runSlotLoop (clock : Clock) (st : LoopState) :
    List Slot → List (Slot × Bool) × LoopState
  | [] => ([], st)
  | slot :: rest =>
    let step := slotStep clock st slot
    let next := runSlotLoop clock step.1 rest
    (step.2 :: next.1, next.2)

/-- The slot-loop task body: `clock.current_epoch().expect("after genesis")`
then the loop.  The `expect` panic on a clock with no current epoch is
modelled as `none`. -/
def slotLoop (clock : Clock) (slots : List Slot) :
    Option (List (Slot × Bool)) :=
  match clock.currentEpoch? with
  | none => none
  | some e => some (runSlotLoop clock ⟨e, false⟩ slots).1

/-- Fine-grained events of the slot-loop task, for temporal properties:
`consume s` is `slots.next().await` yielding `s`; `startOnSlot` and
`finishOnSlot` bracket `relay.on_slot(slot, flag).await`. -/
inductive LoopEvent where
  | consume (slot : Slot)
  | startOnSlot (slot : Slot) (flag : Bool)
  | finishOnSlot (slot : Slot)
deriving DecidableEq, Repr

/-- Whether a loop event is a `consume`. -/
def LoopEvent.isConsume : LoopEvent → Bool
  | .consume _ => true
  | _ => false

/-- Whether a loop event starts an `on_slot` call. -/
def LoopEvent.isStart : LoopEvent → Bool
  | .startOnSlot _ _ => true
  | _ => false

/-- Whether a loop event finishes an `on_slot` call. -/
def LoopEvent.isFinish : LoopEvent → Bool
  | .finishOnSlot _ => true
  | _ => false

/-- The event trace of the loop body: each iteration awaits the stream for
the next slot, then starts `on_slot` and awaits its completion before the
next iteration can consume another slot. -/
def slotLoopTrace (clock : Clock) (st : LoopState) :
    List Slot → List LoopEvent
  | [] => []
  | slot :: rest =>
    let step := slotStep clock st slot
    .consume slot :: .startOnSlot step.2.1 step.2.2 :: .finishOnSlot step.2.1 ::
      slotLoopTrace clock step.1 rest

/-- The slot of an `on_slot` call-start event, if the event is one. -/
def LoopEvent.startSlot? : LoopEvent → Option Slot
  | .startOnSlot slot _ => some slot
  | _ => none

/-- The slots passed to `on_slot`, in the order the calls are started. -/
def onSlotStarts (trace : List LoopEvent) : List Slot :=
  trace.filterMap LoopEvent.startSlot?

/-- The readiness of a polled future (`std::task::Poll`). -/
inductive TaskPoll (α : Type) where
  | ready (a : α)
  | pending
deriving Repr

/-- `tokio::task::JoinError`: the task panicked or was cancelled. -/
inductive JoinError where
  | panicked
  | cancelled
deriving DecidableEq, Repr

/-- The output of awaiting a `JoinHandle<()>`. -/
abbrev TaskOutcome := Except JoinError Unit

/-- What the two inner `JoinHandle`s of a `ServiceHandle` would report if
polled now: the state of the world one `poll` call observes. -/
structure HandlePolls where
  relay : TaskPoll TaskOutcome
  server : TaskPoll TaskOutcome
deriving Repr

/-- The outcome of one `ServiceHandle::poll` call, instrumented with which
inner handles were actually polled. -/
structure PollResult where
  result : TaskPoll TaskOutcome
  polledRelay : Bool
  polledServer : Bool
deriving Repr

/-- `impl Future for ServiceHandle`: poll the relay handle; if it is ready,
return that outcome without touching the server handle; otherwise poll the
server handle and return its result. -/
def ServiceHandle.poll (h : HandlePolls) : PollResult :=
  match h.relay with
  | .ready r => ⟨.ready r, true, false⟩
  | .pending => ⟨h.server, true, true⟩

/-- A mainnet-style clock: 32 slots per epoch, currently in epoch 0. -/
def demoClock : Clock where
  epochFor := fun slot => slot / 32
  currentEpoch? := some 0

/-- A context carrying `demoClock`. -/
def demoContext : Context where
  clock? := some demoClock
  typicalGenesisTime := 1606824023
  clockAt := fun _ => demoClock

/-- A context with no embedded clock, to exercise the fallback branch. -/
def demoContextNoClock : Context where
  clock? := none
  typicalGenesisTime := 1606824023
  clockAt := fun _ => demoClock

/-- A concrete service value for witnesses. -/
def demoService : Service where
  host := Ipv4Addr.LOCALHOST
  port := 28545
  beaconNode := Client.new ⟨"http://127.0.0.1:5052"⟩
  network := ⟨"mainnet"⟩
  secretKey := ⟨0⟩

/-- Collaborators that all succeed. -/
def envOk : SpawnEnv where
  tryFromNetwork := fun _ => .ok demoContext
  fetchGenesis := .ok ⟨42⟩

/-- Collaborators where context derivation fails. -/
def envCtxFail : SpawnEnv where
  tryFromNetwork := fun _ => .error (.err "unknown network")
  fetchGenesis := .ok ⟨42⟩

/-- Collaborators where the beacon-node genesis fetch fails. -/
def envGenFail : SpawnEnv where
  tryFromNetwork := fun _ => .ok demoContext
  fetchGenesis := .error (.err "beacon node unreachable")

/-- A clock that cannot produce a current epoch (pre-genesis). -/
def demoClockPreGenesis : Clock where
  epochFor := fun slot => slot / 32
  currentEpoch? := none

/-- A URL parser accepting exactly the default beacon-node endpoint. -/
def demoParseUrl : String → Option Url := fun s =>
  if s = "http://127.0.0.1:5052" then some ⟨s⟩ else none

/-- Unfolding: the loop on the empty stream. -/
lemma runSlotLoop_nil (clock : Clock) (st : LoopState) :
    runSlotLoop clock st [] = ([], st) := rfl

/-- Unfolding: one loop iteration. -/
lemma runSlotLoop_cons (clock : Clock) (st : LoopState) (slot : Slot)
    (rest : List Slot) :
    runSlotLoop clock st (slot :: rest) =
      ((slotStep clock st slot).2 ::
         (runSlotLoop clock (slotStep clock st slot).1 rest).1,
       (runSlotLoop clock (slotStep clock st slot).1 rest).2) := rfl

/-- Unfolding: the event trace on the empty stream. -/
lemma slotLoopTrace_nil (clock : Clock) (st : LoopState) :
    slotLoopTrace clock st [] = [] := rfl

/-- Unfolding: the event trace of one loop iteration. -/
lemma slotLoopTrace_cons (clock : Clock) (st : LoopState) (slot : Slot)
    (rest : List Slot) :
    slotLoopTrace clock st (slot :: rest) =
      .consume slot ::
      .startOnSlot (slotStep clock st slot).2.1 (slotStep clock st slot).2.2 ::
      .finishOnSlot (slotStep clock st slot).2.1 ::
      slotLoopTrace clock (slotStep clock st slot).1 rest := rfl

/-- The `on_slot` call of an iteration is for the slot just consumed. -/
lemma slotStep_slot (clock : Clock) (st : LoopState) (slot : Slot) :
    (slotStep clock st slot).2.1 = slot := rfl

/-- `current_epoch` never decreases across a single iteration. -/
lemma slotStep_currentEpoch_le (clock : Clock) (st : LoopState) (slot : Slot) :
    st.currentEpoch ≤ (slotStep clock st slot).1.currentEpoch := by
  simp only [slotStep]
  split
  · exact Nat.le_of_lt (by assumption)
  · exact Nat.le_refl _

/-- `current_epoch` never decreases across any number of iterations. -/
lemma runSlotLoop_currentEpoch_le (clock : Clock) :
    ∀ (slots : List Slot) (st : LoopState),
      st.currentEpoch ≤ (runSlotLoop clock st slots).2.currentEpoch
  | [], _ => Nat.le_refl _
  | slot :: rest, st => by
    rw [runSlotLoop_cons]
    exact Nat.le_trans (slotStep_currentEpoch_le clock st slot)
      (runSlotLoop_currentEpoch_le clock rest (slotStep clock st slot).1)

/-- C9: constructing `Config` with no overrides (`Config::default`) yields
exactly host 127.0.0.1, port 28545 and beacon-node URL
"http://127.0.0.1:5052". -/
theorem C9_config_defaults :
    Config.default.host = Ipv4Addr.LOCALHOST ∧
    Config.default.host = ⟨127, 0, 0, 1⟩ ∧
    Config.default.port = 28545 ∧
    Config.default.beaconNodeUrl = "http://127.0.0.1:5052" :=
  ⟨rfl, rfl, rfl, rfl⟩

/-- C2: polling a `ServiceHandle` polls the relay task first; a completed
relay task's outcome is returned immediately and the server task is not
inspected; only when the relay task is pending is the server task polled,
and the handle resolves with the outcome of whichever task completed first
under the fixed priority order (relay, then server). -/
theorem C2_handle_poll_priority (r : TaskOutcome)
    (server : TaskPoll TaskOutcome) :
    ServiceHandle.poll ⟨.ready r, server⟩ = ⟨.ready r, true, false⟩ ∧
    ServiceHandle.poll ⟨.pending, server⟩ = ⟨server, true, true⟩ :=
  ⟨rfl, rfl⟩

/-- C4: `Service::from(network, config)` is a pure construction step: when
the beacon-node URL parses it returns a `Service` storing the
configuration, and a malformed URL is a constructor-time failure (the
`unwrap` panic, modelled as `none`), not an error deferred to `spawn`. -/
theorem C4_from_construction (parseUrl : String → Option Url)
    (network : Network) (config : Config) :
    (∀ u, parseUrl config.beaconNodeUrl = some u →
      Service.from' parseUrl network config =
        some { host := config.host
               port := config.port
               beaconNode := Client.new u
               network := network
               secretKey := config.secretKey }) ∧
    (parseUrl config.beaconNodeUrl = none →
      Service.from' parseUrl network config = none) := by
  constructor
  · intro u hu
    simp [Service.from', hu]
  · intro hu
    simp [Service.from', hu]

/-- Witness for C4 at the default configuration and a parser that rejects a
malformed URL. -/
theorem C4_from_construction_witness :
    Service.from' demoParseUrl ⟨"mainnet"⟩ Config.default =
      some { host := Ipv4Addr.LOCALHOST
             port := 28545
             beaconNode := Client.new ⟨"http://127.0.0.1:5052"⟩
             network := ⟨"mainnet"⟩
             secretKey := ⟨0⟩ } ∧
    Service.from' demoParseUrl ⟨"mainnet"⟩
      { Config.default with beaconNodeUrl := "not a url" } = none :=
  ⟨(C4_from_construction demoParseUrl ⟨"mainnet"⟩ Config.default).1
      ⟨"http://127.0.0.1:5052"⟩ (by decide),
   (C4_from_construction demoParseUrl ⟨"mainnet"⟩
      { Config.default with beaconNodeUrl := "not a url" }).2 (by decide)⟩

/-- C8: at slot-loop start the code runs
`clock.current_epoch().expect("after genesis")`: a clock with no current
epoch is an unrecoverable panic (modelled as `none`), with no recovery or
retry; when the clock does yield a current epoch this branch is unreachable
and the loop proceeds normally from that epoch with the flag false. -/
theorem C8_clock_invariant (clock : Clock) (slots : List Slot) :
    (clock.currentEpoch? = none → slotLoop clock slots = none) ∧
    (∀ e, clock.currentEpoch? = some e →
      slotLoop clock slots = some (runSlotLoop clock ⟨e, false⟩ slots).1) := by
  constructor
  · intro h
    simp [slotLoop, h]
  · intro e h
    simp [slotLoop, h]

/-- Witness for C8: a pre-genesis clock makes the loop body panic, while
`demoClock` (current epoch 0) lets it proceed. -/
theorem C8_clock_invariant_witness :
    slotLoop demoClockPreGenesis [0, 1] = none ∧
    slotLoop demoClock [0, 1] = some [(0, false), (1, false)] :=
  ⟨(C8_clock_invariant demoClockPreGenesis [0, 1]).1 rfl,
   ((C8_clock_invariant demoClock [0, 1]).2 0 rfl).trans (by rfl)⟩

/-- C10: across loop iterations the tracked `current_epoch` is monotonically
non-decreasing: a single iteration sets it to `epoch_for(slot)` exactly when
that is strictly greater and leaves it unchanged otherwise, and any number
of iterations can only increase it. -/
theorem C10_current_epoch_monotone (clock : Clock) (st : LoopState)
    (slot : Slot) (slots : List Slot) :
    ((slotStep clock st slot).1.currentEpoch =
      if st.currentEpoch < clock.epochFor slot then clock.epochFor slot
      else st.currentEpoch) ∧
    st.currentEpoch ≤ (slotStep clock st slot).1.currentEpoch ∧
    st.currentEpoch ≤ (runSlotLoop clock st slots).2.currentEpoch := by
  refine ⟨?_, slotStep_currentEpoch_le clock st slot,
    runSlotLoop_currentEpoch_le clock slots st⟩
  simp only [slotStep]
  split <;> rfl

/-- C1, failing input: with 32 slots per epoch and current epoch initially
0, feeding slots 31, 32, 33 makes the loop call `on_slot(33, true)`,
because `next_epoch` is set at the epoch boundary (slot 32) and never reset
afterwards; the claim requires the flag to be false again at slot 33. -/
theorem C1_flag_never_reset :
    slotLoop demoClock [31, 32, 33] =
      some [(31, false), (32, true), (33, true)] := by rfl

/-- What a successful `Service::spawn` guarantees: the genesis fetch
succeeded, the returned context is the resolved one, the clock is resolved
from it, the relay was built from the fetched validators root and the
service's client, key and resolved context, and the side-effect trace is
relay construction, then `initialize`, then the two task spawns, both on
the same relay instance. -/
lemma spawn_ok_spec (svc : Service) (env : SpawnEnv)
    (context? : Option Context) (ok : SpawnOk)
    (hok : (Service.spawn svc context? env).1 = .ok ok) :
    ∃ gd, env.fetchGenesis = .ok gd ∧
      resolveContext context? env.tryFromNetwork svc.network = .ok ok.context ∧
      ok.clock = resolveClock ok.context ∧
      ok.relay = Relay.new gd.genesisValidatorsRoot svc.beaconNode
        svc.secretKey ok.context ∧
      (Service.spawn svc context? env).2 =
        [.relayNew ok.relay, .relayInit ok.relay.id,
         .spawnServer ok.relay.id svc.host svc.port,
         .spawnSlotLoop ok.relay.id] := by
  unfold Service.spawn at hok ⊢
  cases hctx : resolveContext context? env.tryFromNetwork svc.network with
  | error e =>
    rw [hctx] at hok
    simp at hok
  | ok context =>
    rw [hctx] at hok
    cases hg : env.fetchGenesis with
    | error e =>
      rw [hg] at hok
      simp at hok
    | ok gd =>
      rw [hg] at hok
      have heq : SpawnOk.mk context (resolveClock context)
          (Relay.new gd.genesisValidatorsRoot svc.beaconNode svc.secretKey
            context) = ok := Except.ok.inj hok
      subst heq
      exact ⟨gd, rfl, rfl, rfl, rfl, rfl⟩

/-- C3: `Service::spawn` is atomic with respect to task creation: a context
derivation failure or a beacon-node genesis-fetch failure makes `spawn`
return that error with an empty side-effect trace (no task spawned), and a
returned handle comes with a trace in which both tasks were launched. -/
theorem C3_spawn_atomicity (svc : Service) (env : SpawnEnv)
    (context? : Option Context) :
    (∀ e, env.tryFromNetwork svc.network = .error e →
      Service.spawn svc none env = (.error (.context e), [])) ∧
    (∀ e context,
      resolveContext context? env.tryFromNetwork svc.network = .ok context →
      env.fetchGenesis = .error e →
      Service.spawn svc context? env = (.error (.api e), [])) ∧
    (∀ ok, (Service.spawn svc context? env).1 = .ok ok →
      (Service.spawn svc context? env).2 =
        [.relayNew ok.relay, .relayInit ok.relay.id,
         .spawnServer ok.relay.id svc.host svc.port,
         .spawnSlotLoop ok.relay.id]) := by
  refine ⟨?_, ?_, ?_⟩
  · intro e he
    simp [Service.spawn, resolveContext, he]
  · intro e context hc hg
    simp [Service.spawn, hc, hg]
  · intro ok hok
    obtain ⟨gd, -, -, -, -, htrace⟩ := spawn_ok_spec svc env context? ok hok
    exact htrace

/-- Witness for C3: context-derivation failure and genesis-fetch failure
each abort `spawn` with an empty trace, and a successful run spawns both
tasks. -/
theorem C3_spawn_atomicity_witness :
    Service.spawn demoService none envCtxFail =
      (.error (.context (.err "unknown network")), []) ∧
    Service.spawn demoService none envGenFail =
      (.error (.api (.err "beacon node unreachable")), []) ∧
    (Service.spawn demoService none envOk).2 =
      [.relayNew (Relay.new 42 demoService.beaconNode demoService.secretKey
         demoContext),
       .relayInit 0, .spawnServer 0 Ipv4Addr.LOCALHOST 28545,
       .spawnSlotLoop 0] :=
  ⟨(C3_spawn_atomicity demoService envCtxFail none).1
      (.err "unknown network") rfl,
   (C3_spawn_atomicity demoService envGenFail none).2.1
      (.err "beacon node unreachable") demoContext rfl rfl,
   (C3_spawn_atomicity demoService envOk none).2.2
      { context := demoContext, clock := demoClock,
        relay := Relay.new 42 demoService.beaconNode demoService.secretKey
          demoContext } rfl⟩

/-- C6: in `Service::spawn` the chain context is the caller-supplied one
when present and otherwise derived from the network (a `ContextError` from
the derivation aborts `spawn` as such), and the clock is the context's
embedded clock when present and otherwise computed via `clock_at` from the
network's typical genesis time. -/
theorem C6_context_clock_resolution (svc : Service) (env : SpawnEnv)
    (network : Network) (c : Context)
    (tryFromNetwork : Network → Except ContextError Context) :
    (resolveContext (some c) tryFromNetwork network = .ok c) ∧
    (resolveContext none tryFromNetwork network = tryFromNetwork network) ∧
    (∀ k, c.clock? = some k → resolveClock c = k) ∧
    (c.clock? = none →
      resolveClock c = c.clockAt c.typicalGenesisTime) ∧
    (∀ ok, (Service.spawn svc (some c) env).1 = .ok ok →
      ok.context = c ∧ ok.clock = resolveClock c) ∧
    (∀ e, env.tryFromNetwork svc.network = .error e →
      (Service.spawn svc none env).1 = .error (.context e)) := by
  refine ⟨rfl, rfl, ?_, ?_, ?_, ?_⟩
  · intro k hk
    simp [resolveClock, hk]
  · intro hk
    simp [resolveClock, hk]
  · intro ok hok
    obtain ⟨gd, -, hctx, hclock, -, -⟩ := spawn_ok_spec svc env (some c) ok hok
    simp only [resolveContext, Except.ok.injEq] at hctx
    exact ⟨hctx.symm, hctx ▸ hclock⟩
  · intro e he
    simp [Service.spawn, resolveContext, he]

/-- Witness for C6: the embedded clock is used when present, the fallback
clock otherwise, the supplied context is the one a successful `spawn`
returns, and a derivation failure surfaces as a `ContextError`. -/
theorem C6_context_clock_resolution_witness :
    resolveClock demoContext = demoClock ∧
    resolveClock demoContextNoClock =
      demoContextNoClock.clockAt demoContextNoClock.typicalGenesisTime ∧
    (({ context := demoContext, clock := demoClock,
        relay := Relay.new 42 demoService.beaconNode demoService.secretKey
          demoContext } : SpawnOk).context = demoContext ∧
      ({ context := demoContext, clock := demoClock,
         relay := Relay.new 42 demoService.beaconNode demoService.secretKey
           demoContext } : SpawnOk).clock = resolveClock demoContext) ∧
    (Service.spawn demoService none envCtxFail).1 =
      .error (.context (.err "unknown network")) :=
  ⟨(C6_context_clock_resolution demoService envOk ⟨"mainnet"⟩ demoContext
      envOk.tryFromNetwork).2.2.1 demoClock rfl,
   (C6_context_clock_resolution demoService envOk ⟨"mainnet"⟩
      demoContextNoClock envOk.tryFromNetwork).2.2.2.1 rfl,
   (C6_context_clock_resolution demoService envOk ⟨"mainnet"⟩ demoContext
      envOk.tryFromNetwork).2.2.2.2.1
      { context := demoContext, clock := demoClock,
        relay := Relay.new 42 demoService.beaconNode demoService.secretKey
          demoContext } rfl,
   (C6_context_clock_resolution demoService envCtxFail ⟨"mainnet"⟩
      demoContext envCtxFail.tryFromNetwork).2.2.2.2.2
      (.err "unknown network") rfl⟩

/-- C7: every successful `spawn` constructs exactly one `Relay`, from the
fetched genesis validators root, the beacon client, the secret key and the
resolved context; `initialize` runs to completion before either task is
spawned (it precedes both spawn events in the trace); and both spawned
tasks receive handles to that same relay instance. -/
theorem C7_single_relay_shared (svc : Service) (env : SpawnEnv)
    (context? : Option Context) (ok : SpawnOk)
    (hok : (Service.spawn svc context? env).1 = .ok ok) :
    ((Service.spawn svc context? env).2 =
      [.relayNew ok.relay, .relayInit ok.relay.id,
       .spawnServer ok.relay.id svc.host svc.port,
       .spawnSlotLoop ok.relay.id]) ∧
    ((Service.spawn svc context? env).2.countP SpawnEvent.isRelayNew = 1) ∧
    (∀ gd, env.fetchGenesis = .ok gd →
      ok.relay = Relay.new gd.genesisValidatorsRoot svc.beaconNode
        svc.secretKey ok.context) := by
  obtain ⟨gd, hg, -, -, hrelay, htrace⟩ := spawn_ok_spec svc env context? ok hok
  refine ⟨htrace, ?_, ?_⟩
  · rw [htrace]
    simp [SpawnEvent.isRelayNew, List.countP_cons]
  · intro gd' hg'
    rw [hg] at hg'
    simp only [Except.ok.injEq] at hg'
    exact hg' ▸ hrelay

/-- Witness for C7 on the all-success collaborators. -/
theorem C7_single_relay_shared_witness :
    ((Service.spawn demoService none envOk).2 =
      [.relayNew (Relay.new 42 demoService.beaconNode demoService.secretKey
         demoContext),
       .relayInit 0, .spawnServer 0 Ipv4Addr.LOCALHOST 28545,
       .spawnSlotLoop 0]) ∧
    ((Service.spawn demoService none envOk).2.countP
      SpawnEvent.isRelayNew = 1) ∧
    (({ context := demoContext, clock := demoClock,
        relay := Relay.new 42 demoService.beaconNode demoService.secretKey
          demoContext } : SpawnOk).relay =
      Relay.new 42 demoService.beaconNode demoService.secretKey
        demoContext) :=
  ⟨(C7_single_relay_shared demoService envOk none
      { context := demoContext, clock := demoClock,
        relay := Relay.new 42 demoService.beaconNode demoService.secretKey
          demoContext } rfl).1,
   (C7_single_relay_shared demoService envOk none
      { context := demoContext, clock := demoClock,
        relay := Relay.new 42 demoService.beaconNode demoService.secretKey
          demoContext } rfl).2.1,
   (C7_single_relay_shared demoService envOk none
      { context := demoContext, clock := demoClock,
        relay := Relay.new 42 demoService.beaconNode demoService.secretKey
          demoContext } rfl).2.2 ⟨42⟩ rfl⟩

/-- The loop starts exactly one `on_slot` call per consumed slot, in slot
arrival order. -/
lemma onSlotStarts_slotLoopTrace (clock : Clock) :
    ∀ (slots : List Slot) (st : LoopState),
      onSlotStarts (slotLoopTrace clock st slots) = slots
  | [], _ => rfl
  | slot :: rest, st => by
    have ih := onSlotStarts_slotLoopTrace clock rest (slotStep clock st slot).1
    rw [slotLoopTrace_cons, slotStep_slot]
    simp only [onSlotStarts, List.filterMap_cons, LoopEvent.startSlot?] at ih ⊢
    rw [ih]

/-- Prefix counting discipline of the loop trace: in every prefix, the
number of started `on_slot` calls exceeds the number of finished ones by at
most one (at most one call in flight), and the number of consumed slots
exceeds the number of finished calls by at most one (the previous call is
awaited before the next slot is consumed). -/
lemma slotLoopTrace_take_counts (clock : Clock) :
    ∀ (slots : List Slot) (st : LoopState) (n : Nat),
      (((slotLoopTrace clock st slots).take n).countP LoopEvent.isStart ≤
        ((slotLoopTrace clock st slots).take n).countP LoopEvent.isFinish
          + 1) ∧
      (((slotLoopTrace clock st slots).take n).countP LoopEvent.isConsume ≤
        ((slotLoopTrace clock st slots).take n).countP LoopEvent.isFinish
          + 1)
  | [], st, n => by simp [slotLoopTrace_nil]
  | slot :: rest, st, n => by
    rw [slotLoopTrace_cons]
    match n with
    | 0 => simp
    | 1 =>
      simp [List.countP_cons, LoopEvent.isStart, LoopEvent.isFinish,
        LoopEvent.isConsume]
    | 2 =>
      simp [List.countP_cons, LoopEvent.isStart, LoopEvent.isFinish,
        LoopEvent.isConsume]
    | m + 3 =>
      obtain ⟨ih1, ih2⟩ :=
        slotLoopTrace_take_counts clock rest (slotStep clock st slot).1 m
      simp only [List.take_succ_cons, List.countP_cons, LoopEvent.isStart,
        LoopEvent.isFinish, LoopEvent.isConsume, if_true, if_false]
      omega

/-- C5: within the slot loop, `on_slot` calls are strictly sequential and
ordered by slot arrival: the calls are started once per slot in arrival
order, at most one call is ever in flight, and each call finishes before
the next slot is consumed from the clock stream (stated as counting
invariants over every prefix of the loop's event trace). -/
theorem C5_on_slot_sequential (clock : Clock) (st : LoopState)
    (slots : List Slot) (n : Nat) :
    onSlotStarts (slotLoopTrace clock st slots) = slots ∧
    ((slotLoopTrace clock st slots).take n).countP LoopEvent.isStart ≤
      ((slotLoopTrace clock st slots).take n).countP LoopEvent.isFinish
        + 1 ∧
    ((slotLoopTrace clock st slots).take n).countP LoopEvent.isConsume ≤
      ((slotLoopTrace clock st slots).take n).countP LoopEvent.isFinish
        + 1 :=
  ⟨onSlotStarts_slotLoopTrace clock slots st,
   (slotLoopTrace_take_counts clock slots st n).1,
   (slotLoopTrace_take_counts clock slots st n).2⟩

end MevRelay
